import Mathlib

/-!
Shallow embedding of `src/PhySimObjects/ForceFieldCircle.py`.

The Python code works on `pygame.Vector2` values (pairs of floats); the
embedding models scalars as real numbers.  Python's scalar division raises
`ZeroDivisionError` on a zero denominator, so the one place in the source
where a division by a possibly-zero quantity is not guarded by a preceding
check — `1 / self.mass` and `1 / other_circle.mass` on line 65 of
`resolve_collision` — is modelled in the `Except Unit` monad, with
`Except.error ()` standing for the raised `ZeroDivisionError`.  Every other
division in the source is syntactically guarded (`normalize` runs only under
`distance != 0`, `j / j_divisor` only under `j_divisor != 0`, and
`net_force_accumulated / mass` only under `mass > 0`), so those are kept as
plain field division.
-/

open Classical

noncomputable section

/-- Two-dimensional vector, the model of `pygame.Vector2`. -/
@[ext]
structure Vec2 where
  x : ℝ
  y : ℝ

/-- The zero vector `pygame.Vector2(0, 0)`. -/
def Vec2.zero : Vec2 := ⟨0, 0⟩

/-- Componentwise vector addition. -/
def Vec2.add (v w : Vec2) : Vec2 := ⟨v.x + w.x, v.y + w.y⟩

/-- Componentwise vector subtraction. -/
def Vec2.sub (v w : Vec2) : Vec2 := ⟨v.x - w.x, v.y - w.y⟩

/-- Scalar times vector, `c * v`. -/
def Vec2.smul (c : ℝ) (v : Vec2) : Vec2 := ⟨c * v.x, c * v.y⟩

/-- Vector times scalar, `v * c`. -/
def Vec2.mulScalar (v : Vec2) (c : ℝ) : Vec2 := ⟨v.x * c, v.y * c⟩

/-- Vector divided by scalar, `v / c`. -/
def Vec2.divScalar (v : Vec2) (c : ℝ) : Vec2 := ⟨v.x / c, v.y / c⟩

/-- Dot product of two vectors, `v.dot(w)`. -/
def Vec2.dot (v w : Vec2) : ℝ := v.x * w.x + v.y * w.y

/-- Euclidean length of a vector, `v.length()`. -/
def Vec2.length (v : Vec2) : ℝ := Real.sqrt (v.x ^ 2 + v.y ^ 2)

/-- Euclidean distance between two points, `v.distance_to(w)`. -/
def Vec2.distance_to (v w : Vec2) : ℝ := Vec2.length (Vec2.sub v w)

/-- Unit vector in the direction of `v`, `v.normalize()`.  The source only
evaluates this under the guard `distance != 0`. -/
def Vec2.normalize (v : Vec2) : Vec2 := Vec2.divScalar v (Vec2.length v)

/-- Physics state of a `ForceFieldCircle` (constructor lines 19–36): position
and velocity inherited from `Entity`/`Movable`, mass from `Mass`, plus
restitution, radius and the three per-step accumulators.  `color` and the
`shape` object carry no physics state and are omitted. -/
structure Body where
  position : Vec2
  velocity : Vec2
  mass : ℝ
  restitution : ℝ
  radius : ℝ
  net_force_accumulated : Vec2
  pending_velocity_change : Vec2
  pending_position_correction : Vec2

/-- Boundary rectangle returned by `scenario.display_surface.get_rect()`. -/
structure Rect where
  left : ℝ
  right : ℝ
  top : ℝ
  bottom : ℝ

/-- Lines 42–73, `resolve_collision(self, other)`, specialized to the case
where `other` is a `ForceFieldCircle` (the `isinstance` branch; otherwise the
method does nothing).  The result is the pair (new `self`, new `other`);
`Except.error ()` models the `ZeroDivisionError` raised by `1 / self.mass`
or `1 / other_circle.mass` on line 65 when the respective mass is exactly
zero — that evaluation happens before the `j_divisor == 0` guard on line 66
can run. -/
def resolve_collision (self other_circle : Body) : Except Unit (Body × Body) :=
  let distance := Vec2.distance_to self.position other_circle.position
  let combined_radii := self.radius + other_circle.radius
  if distance < combined_radii ∧ distance ≠ 0 then
    let overlap := combined_radii - distance
    let direction := Vec2.normalize (Vec2.sub self.position other_circle.position)
    let self1 := { self with pending_position_correction := Vec2.add self.pending_position_correction (Vec2.mulScalar direction (overlap / 2)) }
    let other1 := { other_circle with pending_position_correction := Vec2.sub other_circle.pending_position_correction (Vec2.mulScalar direction (overlap / 2)) }
    let relative_velocity := Vec2.sub self1.velocity other1.velocity
    let velocity_along_normal := Vec2.dot relative_velocity direction
    if velocity_along_normal < 0 then
      let e := min self1.restitution other1.restitution
      let j0 := -(1 + e) * velocity_along_normal
      if self1.mass = 0 then Except.error ()
      else if other1.mass = 0 then Except.error ()
      else
        let j_divisor := 1 / self1.mass + 1 / other1.mass
        if j_divisor = 0 then Except.ok (self1, other1)
        else
          let j := j0 / j_divisor
          let impulse := Vec2.smul j direction
          Except.ok
            ({ self1 with pending_velocity_change := Vec2.add self1.pending_velocity_change (Vec2.divScalar impulse self1.mass) },
             { other1 with pending_velocity_change := Vec2.sub other1.pending_velocity_change (Vec2.divScalar impulse other1.mass) })
    else Except.ok (self1, other1)
  else Except.ok (self, other_circle)

/-- Lines 78–79, `apply_force(self, force, delta_time)`: adds `force` into the
accumulator; the `delta_time` parameter is not used by the body. -/
def apply_force (self : Body) (force : Vec2) (delta_time : ℝ) : Body :=
  { self with net_force_accumulated := Vec2.add self.net_force_accumulated force }

/-- Lines 81–82, `apply_movement(self, delta_time)`:
`position += velocity * delta_time`. -/
def apply_movement (self : Body) (delta_time : ℝ) : Body :=
  { self with position := Vec2.add self.position (Vec2.mulScalar self.velocity delta_time) }

/-- Lines 111–114, the left-edge clamp block of `update`. -/
def bounce_left (self : Body) (screen_rect : Rect) : Body :=
  if self.position.x - self.radius < screen_rect.left then
    let px := screen_rect.left + self.radius
    let vx0 := self.velocity.x * (-self.restitution)
    let vx := if |vx0| < (0.1 : ℝ) then 0 else vx0
    { self with position := ⟨px, self.position.y⟩, velocity := ⟨vx, self.velocity.y⟩ }
  else self

/-- Lines 115–118, the right-edge clamp block of `update`. -/
def bounce_right (self : Body) (screen_rect : Rect) : Body :=
  if self.position.x + self.radius > screen_rect.right then
    let px := screen_rect.right - self.radius
    let vx0 := self.velocity.x * (-self.restitution)
    let vx := if |vx0| < (0.1 : ℝ) then 0 else vx0
    { self with position := ⟨px, self.position.y⟩, velocity := ⟨vx, self.velocity.y⟩ }
  else self

/-- Lines 119–122, the top-edge clamp block of `update`. -/
def bounce_top (self : Body) (screen_rect : Rect) : Body :=
  if self.position.y - self.radius < screen_rect.top then
    let py := screen_rect.top + self.radius
    let vy0 := self.velocity.y * (-self.restitution)
    let vy := if |vy0| < (0.1 : ℝ) then 0 else vy0
    { self with position := ⟨self.position.x, py⟩, velocity := ⟨self.velocity.x, vy⟩ }
  else self

/-- Lines 123–126, the bottom-edge clamp block of `update`. -/
def bounce_bottom (self : Body) (screen_rect : Rect) : Body :=
  if self.position.y + self.radius > screen_rect.bottom then
    let py := screen_rect.bottom - self.radius
    let vy0 := self.velocity.y * (-self.restitution)
    let vy := if |vy0| < (0.1 : ℝ) then 0 else vy0
    { self with position := ⟨self.position.x, py⟩, velocity := ⟨self.velocity.x, vy⟩ }
  else self

/-- Lines 110–126 of `update`: the four edge blocks run in source order on the
same body. -/
def apply_boundary (self : Body) (screen_rect : Rect) : Body :=
  bounce_bottom (bounce_top (bounce_right (bounce_left self screen_rect) screen_rect)
    screen_rect) screen_rect

/-- Lines 99–126, `update(self, delta_time, scenario)`: force integration for
positive mass, unconditional force reset, application of the pending
collision deltas, movement, then the boundary blocks. -/
def update (self : Body) (delta_time : ℝ) (screen_rect : Rect) : Body :=
  let self1 :=
    if 0 < self.mass then
      let acceleration := Vec2.divScalar self.net_force_accumulated self.mass
      { self with velocity := Vec2.add self.velocity (Vec2.mulScalar acceleration delta_time) }
    else self
  let self2 := { self1 with net_force_accumulated := Vec2.zero }
  let self3 := { self2 with velocity := Vec2.add self2.velocity self2.pending_velocity_change }
  let self4 := { self3 with position := Vec2.add self3.position self3.pending_position_correction }
  let self5 := apply_movement self4 delta_time
  apply_boundary self5 screen_rect

/-- Modelled from the spec: `CircleShape.intersects` is not among the provided
sources (only `ForceFieldCircle.py` is); §4.2 specifies the overlap test
between two circles as `distance(centerA, centerB) < radiusA + radiusB`. -/
def intersects (radiusA radiusB : ℝ) (posA posB : Vec2) : Prop :=
  Vec2.distance_to posA posB < radiusA + radiusB

/-- Lines 84–97, `calculate_physics(self, delta_time, scenario)`, specialized
to a scenario whose entity registry holds exactly `self` and `other` (another
`ForceFieldCircle`) and no `ForceField` entities: the force loop contributes
nothing, the pending accumulators are reset, and the single collision
candidate is tested with `intersects` and resolved. -/
def calculate_physics_pair (self other : Body) : Except Unit (Body × Body) :=
  let self1 := { self with pending_velocity_change := Vec2.zero, pending_position_correction := Vec2.zero }
  if intersects self1.radius other.radius self1.position other.position then
    resolve_collision self1 other
  else Except.ok (self1, other)

/-- One full frame for a two-body registry `[a, b]` in registry order, as §5
describes the driving loop: `a.calculate_physics`, `a.update`,
`b.calculate_physics`, `b.update`.  Each `calculate_physics` call may mutate
both bodies' pending fields, so the pair is threaded through. -/
def full_step_pair (a b : Body) (delta_time : ℝ) (screen_rect : Rect) :
    Except Unit (Body × Body) :=
  Except.bind (calculate_physics_pair a b) (fun ab =>
    Except.bind (calculate_physics_pair ab.2 (update ab.1 delta_time screen_rect)) (fun ba =>
      Except.ok (ba.2, update ba.1 delta_time screen_rect)))

/-- Follows the spec's wording in §4.4 Integrator: per step, in order,
(a) if mass > 0 add `(net_force_accumulated / mass) * Δt` to the velocity;
(b) reset `net_force_accumulated` to zero (unconditionally); (c) add
`pending_velocity_change` to the velocity; (d) add
`pending_position_correction` to the position; (e) advance the position by
`velocity * Δt`. -/
def spec_integrate (self : Body) (delta_time : ℝ) : Body :=
  let va :=
    if 0 < self.mass then
      Vec2.add self.velocity
        (Vec2.mulScalar (Vec2.divScalar self.net_force_accumulated self.mass) delta_time)
    else self.velocity
  let vc := Vec2.add va self.pending_velocity_change
  let pd := Vec2.add self.position self.pending_position_correction
  let pe := Vec2.add pd (Vec2.mulScalar vc delta_time)
  { self with velocity := vc, position := pe, net_force_accumulated := Vec2.zero }

/-- Position-only containment predicate against a rectangle: the circle of the
given radius around `p` lies inside `r` (the negation of every trigger
condition of the four boundary blocks). -/
def in_bounds_at (p : Vec2) (radius : ℝ) (r : Rect) : Prop :=
  r.left ≤ p.x - radius ∧ p.x + radius ≤ r.right ∧
  r.top ≤ p.y - radius ∧ p.y + radius ≤ r.bottom

/-! Concrete bodies and rectangles used to instantiate the theorems on
specific inputs. -/

/-- Stationary unit-restitution body of radius 2 at the origin. -/
def sampleA : Body := ⟨⟨0, 0⟩, Vec2.zero, 1, 1, 2, Vec2.zero, Vec2.zero, Vec2.zero⟩

/-- Stationary unit-restitution body of radius 2 at `(3, 0)`; it overlaps
`sampleA` (center distance 3 < combined radii 4). -/
def sampleB : Body := ⟨⟨3, 0⟩, Vec2.zero, 1, 1, 2, Vec2.zero, Vec2.zero, Vec2.zero⟩

/-- Unit-mass elastic body at the origin moving right at speed 1. -/
def headOnA : Body := ⟨⟨0, 0⟩, ⟨1, 0⟩, 1, 1, 2, Vec2.zero, Vec2.zero, Vec2.zero⟩

/-- Unit-mass elastic body at `(3, 0)` moving left at speed 1, approaching
`headOnA` head-on along the line of centers. -/
def headOnB : Body := ⟨⟨3, 0⟩, ⟨-1, 0⟩, 1, 1, 2, Vec2.zero, Vec2.zero, Vec2.zero⟩

/-- Body with mass exactly 0 at the origin moving right, overlapping
`unitMassB` and approaching it. -/
def zeroMassA : Body := ⟨⟨0, 0⟩, ⟨1, 0⟩, 0, 1, 1, Vec2.zero, Vec2.zero, Vec2.zero⟩

/-- Stationary unit-mass body at `(1, 0)` of radius 1. -/
def unitMassB : Body := ⟨⟨1, 0⟩, Vec2.zero, 1, 1, 1, Vec2.zero, Vec2.zero, Vec2.zero⟩

/-- Stationary body of radius 6 centered in `smallRect`, whose diameter 12
exceeds the rectangle's width and height 10. -/
def bigBody : Body := ⟨⟨5, 5⟩, Vec2.zero, 1, 0.5, 6, Vec2.zero, Vec2.zero, Vec2.zero⟩

/-- Stationary body of radius 1 centered in `smallRect`. -/
def smallBody : Body := ⟨⟨5, 5⟩, Vec2.zero, 1, 0.5, 1, Vec2.zero, Vec2.zero, Vec2.zero⟩

/-- A 10-by-10 boundary rectangle. -/
def smallRect : Rect := ⟨0, 10, 0, 10⟩

/-- Body of radius 1 protruding past the left edge of `smallRect`, moving
left slowly enough that the reflected velocity falls under the 0.1
anti-jitter threshold. -/
def jitterBody : Body := ⟨⟨0.5, 5⟩, ⟨-0.05, 0⟩, 1, 0.5, 1, Vec2.zero, Vec2.zero, Vec2.zero⟩

/-- Stationary body of radius 10 at the origin, deeply overlapping `deepB`. -/
def deepA : Body := ⟨⟨0, 0⟩, Vec2.zero, 1, 1, 10, Vec2.zero, Vec2.zero, Vec2.zero⟩

/-- Stationary body of radius 10 at `(1, 0)`: the pair is overlapped by 19 of
the 20 combined radii. -/
def deepB : Body := ⟨⟨1, 0⟩, Vec2.zero, 1, 1, 10, Vec2.zero, Vec2.zero, Vec2.zero⟩

/-- A large boundary rectangle that no sample body ever reaches. -/
def hugeRect : Rect := ⟨-1000, 1000, -1000, 1000⟩

/-- Body at `(5, 5)`. -/
def coincidentA : Body := ⟨⟨5, 5⟩, Vec2.zero, 1, 1, 2, Vec2.zero, Vec2.zero, Vec2.zero⟩

/-- A different body placed at exactly the same center as `coincidentA`. -/
def coincidentB : Body := ⟨⟨5, 5⟩, ⟨2, 0⟩, 3, 0.5, 1, Vec2.zero, Vec2.zero, Vec2.zero⟩

/-! Basic algebraic facts about the vector operations. -/

@[simp]
theorem Vec2.add_zero_vec (v : Vec2) : Vec2.add v Vec2.zero = v := by
  simp [Vec2.add, Vec2.zero]

@[simp]
theorem Vec2.zero_add_vec (v : Vec2) : Vec2.add Vec2.zero v = v := by
  simp [Vec2.add, Vec2.zero]

@[simp]
theorem Vec2.sub_self_vec (v : Vec2) : Vec2.sub v v = Vec2.zero := by
  simp [Vec2.sub, Vec2.zero]

@[simp]
theorem Vec2.mulScalar_zero_vec (c : ℝ) : Vec2.mulScalar Vec2.zero c = Vec2.zero := by
  simp [Vec2.mulScalar, Vec2.zero]

@[simp]
theorem Vec2.dot_zero_left (v : Vec2) : Vec2.dot Vec2.zero v = 0 := by
  simp [Vec2.dot, Vec2.zero]

theorem Vec2.length_nonneg (v : Vec2) : 0 ≤ Vec2.length v :=
  Real.sqrt_nonneg _

theorem Vec2.sq_length (v : Vec2) : Vec2.length v ^ 2 = v.x ^ 2 + v.y ^ 2 :=
  Real.sq_sqrt (by positivity)

/-- Evaluation rule for `Vec2.length` given the squared length. -/
theorem Vec2.length_eval (v : Vec2) (l : ℝ) (h0 : 0 ≤ l)
    (h : v.x ^ 2 + v.y ^ 2 = l ^ 2) : Vec2.length v = l := by
  rw [Vec2.length, h, Real.sqrt_sq h0]

/-- Evaluation rule for `Vec2.distance_to` given the squared distance. -/
theorem Vec2.distance_eval (v w : Vec2) (l : ℝ) (h0 : 0 ≤ l)
    (h : (v.x - w.x) ^ 2 + (v.y - w.y) ^ 2 = l ^ 2) : Vec2.distance_to v w = l := by
  rw [Vec2.distance_to]
  exact Vec2.length_eval _ _ h0 h

@[simp]
theorem Vec2.length_zero_vec : Vec2.length Vec2.zero = 0 := by
  simp [Vec2.length, Vec2.zero]

/-- A normalized nonzero vector has unit dot product with itself. -/
theorem Vec2.dot_normalize_self (v : Vec2) (h : Vec2.length v ≠ 0) :
    Vec2.dot (Vec2.normalize v) (Vec2.normalize v) = 1 := by
  have hsq := Vec2.sq_length v
  simp only [Vec2.dot, Vec2.normalize, Vec2.divScalar]
  field_simp
  ring_nf
  ring_nf at hsq
  linarith [hsq]

/-! Characterizations of `resolve_collision` on its distinct control paths. -/

/-- Coincident centers (line 52, `distance != 0` fails): no state is written
and no error is raised. -/
theorem resolve_collision_coincident (a b : Body) (h : a.position = b.position) :
    resolve_collision a b = Except.ok (a, b) := by
  have hd : Vec2.distance_to a.position b.position = 0 := by
    rw [h, Vec2.distance_to, Vec2.sub_self_vec, Vec2.length_zero_vec]
  simp only [resolve_collision, hd]
  rw [if_neg]
  intro hc
  exact hc.2 rfl

/-- Overlapping pair with non-approaching relative velocity (line 62 guard
fails): both position corrections are written, no impulse. -/
theorem resolve_collision_separating (a b : Body)
    (h0 : Vec2.distance_to a.position b.position ≠ 0)
    (hlt : Vec2.distance_to a.position b.position < a.radius + b.radius)
    (hvan : 0 ≤ Vec2.dot (Vec2.sub a.velocity b.velocity)
      (Vec2.normalize (Vec2.sub a.position b.position))) :
    resolve_collision a b = Except.ok
      ({ a with pending_position_correction := Vec2.add a.pending_position_correction (Vec2.mulScalar (Vec2.normalize (Vec2.sub a.position b.position)) ((a.radius + b.radius - Vec2.distance_to a.position b.position) / 2)) },
       { b with pending_position_correction := Vec2.sub b.pending_position_correction (Vec2.mulScalar (Vec2.normalize (Vec2.sub a.position b.position)) ((a.radius + b.radius - Vec2.distance_to a.position b.position) / 2)) }) := by
  simp only [resolve_collision]
  rw [if_pos ⟨hlt, h0⟩, if_neg (not_lt.mpr hvan)]

/-- Overlapping pair with approaching relative velocity and workable masses:
both position corrections and both impulse halves are written. -/
theorem resolve_collision_approaching (a b : Body)
    (h0 : Vec2.distance_to a.position b.position ≠ 0)
    (hlt : Vec2.distance_to a.position b.position < a.radius + b.radius)
    (hvan : Vec2.dot (Vec2.sub a.velocity b.velocity)
      (Vec2.normalize (Vec2.sub a.position b.position)) < 0)
    (hma : a.mass ≠ 0) (hmb : b.mass ≠ 0)
    (hdiv : 1 / a.mass + 1 / b.mass ≠ 0) :
    resolve_collision a b = Except.ok
      ({ a with
          pending_position_correction := Vec2.add a.pending_position_correction (Vec2.mulScalar (Vec2.normalize (Vec2.sub a.position b.position)) ((a.radius + b.radius - Vec2.distance_to a.position b.position) / 2)),
          pending_velocity_change := Vec2.add a.pending_velocity_change (Vec2.divScalar (Vec2.smul (-(1 + min a.restitution b.restitution) * Vec2.dot (Vec2.sub a.velocity b.velocity) (Vec2.normalize (Vec2.sub a.position b.position)) / (1 / a.mass + 1 / b.mass)) (Vec2.normalize (Vec2.sub a.position b.position))) a.mass) },
       { b with
          pending_position_correction := Vec2.sub b.pending_position_correction (Vec2.mulScalar (Vec2.normalize (Vec2.sub a.position b.position)) ((a.radius + b.radius - Vec2.distance_to a.position b.position) / 2)),
          pending_velocity_change := Vec2.sub b.pending_velocity_change (Vec2.divScalar (Vec2.smul (-(1 + min a.restitution b.restitution) * Vec2.dot (Vec2.sub a.velocity b.velocity) (Vec2.normalize (Vec2.sub a.position b.position)) / (1 / a.mass + 1 / b.mass)) (Vec2.normalize (Vec2.sub a.position b.position))) b.mass) }) := by
  simp only [resolve_collision]
  rw [if_pos ⟨hlt, h0⟩, if_pos hvan, if_neg hma, if_neg hmb, if_neg hdiv]

/-! Structure of `update`: the integrator steps followed by the boundary
blocks. -/

/-- `update` is exactly the spec's integrator order (§4.4) followed by the
boundary blocks. -/
theorem update_eq_spec (b : Body) (dt : ℝ) (r : Rect) :
    update b dt r = apply_boundary (spec_integrate b dt) r := by
  unfold update spec_integrate apply_movement
  by_cases h : 0 < b.mass <;> simp [h]

@[simp]
theorem bounce_left_radius (b : Body) (r : Rect) : (bounce_left b r).radius = b.radius := by
  unfold bounce_left; split <;> rfl

@[simp]
theorem bounce_right_radius (b : Body) (r : Rect) : (bounce_right b r).radius = b.radius := by
  unfold bounce_right; split <;> rfl

@[simp]
theorem bounce_top_radius (b : Body) (r : Rect) : (bounce_top b r).radius = b.radius := by
  unfold bounce_top; split <;> rfl

@[simp]
theorem bounce_bottom_radius (b : Body) (r : Rect) : (bounce_bottom b r).radius = b.radius := by
  unfold bounce_bottom; split <;> rfl

@[simp]
theorem bounce_top_position_x (b : Body) (r : Rect) :
    (bounce_top b r).position.x = b.position.x := by
  unfold bounce_top; split <;> rfl

@[simp]
theorem bounce_bottom_position_x (b : Body) (r : Rect) :
    (bounce_bottom b r).position.x = b.position.x := by
  unfold bounce_bottom; split <;> rfl

@[simp]
theorem bounce_left_position_y (b : Body) (r : Rect) :
    (bounce_left b r).position.y = b.position.y := by
  unfold bounce_left; split <;> rfl

@[simp]
theorem bounce_right_position_y (b : Body) (r : Rect) :
    (bounce_right b r).position.y = b.position.y := by
  unfold bounce_right; split <;> rfl

/-- After the two x-edge blocks the x coordinate is clamped into the band,
provided the band is nonempty. -/
theorem clamp_x (b : Body) (r : Rect) (hx : r.left + b.radius ≤ r.right - b.radius) :
    r.left + b.radius ≤ (bounce_right (bounce_left b r) r).position.x ∧
    (bounce_right (bounce_left b r) r).position.x ≤ r.right - b.radius := by
  unfold bounce_right bounce_left
  split_ifs <;> simp_all <;> constructor <;> linarith

/-- After the two y-edge blocks the y coordinate is clamped into the band,
provided the band is nonempty. -/
theorem clamp_y (b : Body) (r : Rect) (hy : r.top + b.radius ≤ r.bottom - b.radius) :
    r.top + b.radius ≤ (bounce_bottom (bounce_top b r) r).position.y ∧
    (bounce_bottom (bounce_top b r) r).position.y ≤ r.bottom - b.radius := by
  unfold bounce_bottom bounce_top
  split_ifs <;> simp_all <;> constructor <;> linarith

/-- A body already inside the rectangle passes through the boundary blocks
unchanged. -/
theorem apply_boundary_of_in_bounds (b : Body) (r : Rect)
    (h : in_bounds_at b.position b.radius r) :
    apply_boundary b r = b := by
  obtain ⟨h1, h2, h3, h4⟩ := h
  unfold apply_boundary bounce_left bounce_right bounce_top bounce_bottom
  rw [if_neg (not_lt.mpr h1), if_neg (not_lt.mpr h2), if_neg (not_lt.mpr h3),
    if_neg (not_lt.mpr h4)]

/-- `update` of a body with zero velocity, zero accumulated force and zero
pending velocity change, whose corrected position stays inside the rectangle:
only the position moves (by the pending correction) and the force accumulator
is reset. -/
theorem update_of_zero (b : Body) (dt : ℝ) (r : Rect)
    (hv : b.velocity = Vec2.zero) (hf : b.net_force_accumulated = Vec2.zero)
    (hpv : b.pending_velocity_change = Vec2.zero)
    (hin : in_bounds_at (Vec2.add b.position b.pending_position_correction) b.radius r) :
    update b dt r = { b with net_force_accumulated := Vec2.zero, position := Vec2.add b.position b.pending_position_correction } := by
  rw [update_eq_spec]
  have hsi : spec_integrate b dt = { b with net_force_accumulated := Vec2.zero, position := Vec2.add b.position b.pending_position_correction } := by
    unfold spec_integrate
    by_cases h : 0 < b.mass <;>
      simp [h, hv, hf, hpv, Vec2.divScalar, Vec2.mulScalar, Vec2.add, Vec2.zero]
  rw [hsi]
  exact apply_boundary_of_in_bounds _ _ hin

/-! Geometry of moving a point along the separation direction. -/

/-- Squared-distance form of a known distance. -/
theorem Vec2.sq_dist (p q : Vec2) (d : ℝ) (hd : Vec2.distance_to p q = d) :
    (p.x - q.x) ^ 2 + (p.y - q.y) ^ 2 = d ^ 2 := by
  have h := Vec2.sq_length (Vec2.sub p q)
  rw [show Vec2.length (Vec2.sub p q) = d from hd] at h
  simpa [Vec2.sub] using h.symm

/-- Moving `p` away from `q` by `t` along the unit vector from `q` to `p`
increases the distance to exactly `d + t`. -/
theorem dist_opposite (p q : Vec2) (t d : ℝ) (hd : Vec2.distance_to p q = d)
    (hd0 : 0 < d) (ht : 0 ≤ t) :
    Vec2.distance_to q
      (Vec2.add p (Vec2.mulScalar (Vec2.normalize (Vec2.sub p q)) t)) = d + t := by
  have hd2 := Vec2.sq_dist p q d hd
  have hl2 : Vec2.length ⟨p.x - q.x, p.y - q.y⟩ = d := hd
  have h1 : d ≠ 0 := ne_of_gt hd0
  apply Vec2.distance_eval _ _ _ (by linarith)
  simp only [Vec2.add, Vec2.sub, Vec2.mulScalar, Vec2.normalize, Vec2.divScalar, hl2]
  field_simp
  linear_combination (d + t) ^ 2 * hd2

/-- The unit vector from the moved point back to `q` is the negation of the
unit vector from `q` to `p`. -/
theorem normalize_opposite (p q : Vec2) (t d : ℝ) (hd : Vec2.distance_to p q = d)
    (hd0 : 0 < d) (ht : 0 ≤ t) :
    Vec2.normalize (Vec2.sub q (Vec2.add p (Vec2.mulScalar (Vec2.normalize (Vec2.sub p q)) t)))
      = Vec2.mulScalar (Vec2.normalize (Vec2.sub p q)) (-1) := by
  have hlen : Vec2.distance_to q
      (Vec2.add p (Vec2.mulScalar (Vec2.normalize (Vec2.sub p q)) t)) = d + t :=
    dist_opposite p q t d hd hd0 ht
  have hl2 : Vec2.length ⟨p.x - q.x, p.y - q.y⟩ = d := hd
  have h1 : d ≠ 0 := ne_of_gt hd0
  have h2 : d + t ≠ 0 := by linarith
  rw [Vec2.normalize, show Vec2.length (Vec2.sub q (Vec2.add p
    (Vec2.mulScalar (Vec2.normalize (Vec2.sub p q)) t))) = d + t from hlen]
  ext <;> simp only [Vec2.divScalar, Vec2.mulScalar, Vec2.normalize, Vec2.sub, Vec2.add, hl2] <;>
    field_simp <;> ring

/-- Distance after moving `p` by `s` and `q` by `t`, both outward along the
line of centers. -/
theorem dist_along (p q : Vec2) (s t d : ℝ) (hd : Vec2.distance_to p q = d)
    (hd0 : 0 < d) (hs : 0 ≤ s) (ht : 0 ≤ t) :
    Vec2.distance_to (Vec2.add p (Vec2.mulScalar (Vec2.normalize (Vec2.sub p q)) s))
      (Vec2.sub q (Vec2.mulScalar (Vec2.normalize (Vec2.sub p q)) t)) = d + s + t := by
  have hd2 := Vec2.sq_dist p q d hd
  have hl2 : Vec2.length ⟨p.x - q.x, p.y - q.y⟩ = d := hd
  have h1 : d ≠ 0 := ne_of_gt hd0
  apply Vec2.distance_eval _ _ _ (by linarith)
  simp only [Vec2.add, Vec2.sub, Vec2.mulScalar, Vec2.normalize, Vec2.divScalar, hl2]
  field_simp
  linear_combination (d + s + t) ^ 2 * hd2

/-- One body's `calculate_physics` plus `update` against a static overlapping
partner, both with zero velocity and no accumulated force: the collision pass
records the half-overlap push for both bodies and the update moves `s` by its
half, with the boundary blocks not engaging. -/
theorem half_step_static (s o : Body) (dt : ℝ) (r : Rect)
    (hvs : s.velocity = Vec2.zero) (hvo : o.velocity = Vec2.zero)
    (hfs : s.net_force_accumulated = Vec2.zero)
    (h0 : Vec2.distance_to s.position o.position ≠ 0)
    (hlt : Vec2.distance_to s.position o.position < s.radius + o.radius)
    (hin : in_bounds_at (Vec2.add s.position (Vec2.mulScalar (Vec2.normalize (Vec2.sub s.position o.position)) ((s.radius + o.radius - Vec2.distance_to s.position o.position) / 2))) s.radius r) :
    calculate_physics_pair s o = Except.ok
      ({ s with pending_velocity_change := Vec2.zero, pending_position_correction := Vec2.mulScalar (Vec2.normalize (Vec2.sub s.position o.position)) ((s.radius + o.radius - Vec2.distance_to s.position o.position) / 2) },
       { o with pending_position_correction := Vec2.sub o.pending_position_correction (Vec2.mulScalar (Vec2.normalize (Vec2.sub s.position o.position)) ((s.radius + o.radius - Vec2.distance_to s.position o.position) / 2)) }) ∧
    update { s with pending_velocity_change := Vec2.zero, pending_position_correction := Vec2.mulScalar (Vec2.normalize (Vec2.sub s.position o.position)) ((s.radius + o.radius - Vec2.distance_to s.position o.position) / 2) } dt r
      = { s with pending_velocity_change := Vec2.zero, pending_position_correction := Vec2.mulScalar (Vec2.normalize (Vec2.sub s.position o.position)) ((s.radius + o.radius - Vec2.distance_to s.position o.position) / 2), net_force_accumulated := Vec2.zero, position := Vec2.add s.position (Vec2.mulScalar (Vec2.normalize (Vec2.sub s.position o.position)) ((s.radius + o.radius - Vec2.distance_to s.position o.position) / 2)) } := by
  constructor
  · simp only [calculate_physics_pair]
    rw [if_pos (show intersects s.radius o.radius s.position o.position from hlt)]
    rw [resolve_collision_separating
      { s with pending_velocity_change := Vec2.zero, pending_position_correction := Vec2.zero } o
      h0 hlt (by simp [hvs, hvo])]
    simp
  · rw [update_of_zero _ dt r (by rw [show ({ s with pending_velocity_change := Vec2.zero, pending_position_correction := Vec2.mulScalar (Vec2.normalize (Vec2.sub s.position o.position)) ((s.radius + o.radius - Vec2.distance_to s.position o.position) / 2) } : Body).velocity = s.velocity from rfl]; exact hvs) (by exact hfs) rfl (by exact hin)]

theorem Vec2.add_mulScalar_neg (q v : Vec2) (s : ℝ) :
    Vec2.add q (Vec2.mulScalar (Vec2.mulScalar v (-1)) s) = Vec2.sub q (Vec2.mulScalar v s) := by
  ext <;> simp [Vec2.add, Vec2.sub, Vec2.mulScalar] <;> ring

@[simp]
theorem except_bind_ok {α β ε : Type} (x : α) (f : α → Except ε β) :
    Except.bind (Except.ok x) f = f x := rfl

/-- One full frame for a stationary overlapping pair: `a` moves out by half the
overlap during its own step, then `b` moves out by half the remaining overlap
during its step, and the final center distance is the combined radii minus a
quarter of the originally detected overlap. -/
theorem full_step_pair_static (a b : Body) (dt : ℝ) (r : Rect)
    (hva : a.velocity = Vec2.zero) (hvb : b.velocity = Vec2.zero)
    (hfa : a.net_force_accumulated = Vec2.zero) (hfb : b.net_force_accumulated = Vec2.zero)
    (h0 : Vec2.distance_to a.position b.position ≠ 0)
    (hlt : Vec2.distance_to a.position b.position < a.radius + b.radius)
    (hA : in_bounds_at (Vec2.add a.position (Vec2.mulScalar (Vec2.normalize (Vec2.sub a.position b.position)) ((a.radius + b.radius - Vec2.distance_to a.position b.position) / 2))) a.radius r)
    (hB : in_bounds_at (Vec2.sub b.position (Vec2.mulScalar (Vec2.normalize (Vec2.sub a.position b.position)) ((a.radius + b.radius - Vec2.distance_to a.position b.position) / 4))) b.radius r) :
    ∃ p : Body × Body, full_step_pair a b dt r = Except.ok p ∧
      p.1.position = Vec2.add a.position (Vec2.mulScalar (Vec2.normalize (Vec2.sub a.position b.position)) ((a.radius + b.radius - Vec2.distance_to a.position b.position) / 2)) ∧
      p.2.position = Vec2.sub b.position (Vec2.mulScalar (Vec2.normalize (Vec2.sub a.position b.position)) ((a.radius + b.radius - Vec2.distance_to a.position b.position) / 4)) ∧
      Vec2.distance_to p.1.position p.2.position
        = (a.radius + b.radius) - (a.radius + b.radius - Vec2.distance_to a.position b.position) / 4 := by
  have hd0pos : 0 < Vec2.distance_to a.position b.position :=
    lt_of_le_of_ne (Vec2.length_nonneg _) (Ne.symm h0)
  have hov : 0 < a.radius + b.radius - Vec2.distance_to a.position b.position := by linarith
  obtain ⟨hc1, hu1⟩ := half_step_static a b dt r hva hvb hfa h0 hlt hA
  have hdist2 : Vec2.distance_to b.position (Vec2.add a.position (Vec2.mulScalar (Vec2.normalize (Vec2.sub a.position b.position)) ((a.radius + b.radius - Vec2.distance_to a.position b.position) / 2))) = Vec2.distance_to a.position b.position + (a.radius + b.radius - Vec2.distance_to a.position b.position) / 2 :=
    dist_opposite a.position b.position _ _ rfl hd0pos (by linarith)
  have hnorm2 : Vec2.normalize (Vec2.sub b.position (Vec2.add a.position (Vec2.mulScalar (Vec2.normalize (Vec2.sub a.position b.position)) ((a.radius + b.radius - Vec2.distance_to a.position b.position) / 2)))) = Vec2.mulScalar (Vec2.normalize (Vec2.sub a.position b.position)) (-1) :=
    normalize_opposite a.position b.position _ _ rfl hd0pos (by linarith)
  have hM2 : Vec2.mulScalar (Vec2.normalize (Vec2.sub b.position (Vec2.add a.position (Vec2.mulScalar (Vec2.normalize (Vec2.sub a.position b.position)) ((a.radius + b.radius - Vec2.distance_to a.position b.position) / 2))))) ((b.radius + a.radius - Vec2.distance_to b.position (Vec2.add a.position (Vec2.mulScalar (Vec2.normalize (Vec2.sub a.position b.position)) ((a.radius + b.radius - Vec2.distance_to a.position b.position) / 2)))) / 2) = Vec2.mulScalar (Vec2.mulScalar (Vec2.normalize (Vec2.sub a.position b.position)) (-1)) ((a.radius + b.radius - Vec2.distance_to a.position b.position) / 4) := by
    rw [hdist2, hnorm2]
    congr 1
    ring
  have hpos2 : Vec2.add b.position (Vec2.mulScalar (Vec2.normalize (Vec2.sub b.position (Vec2.add a.position (Vec2.mulScalar (Vec2.normalize (Vec2.sub a.position b.position)) ((a.radius + b.radius - Vec2.distance_to a.position b.position) / 2))))) ((b.radius + a.radius - Vec2.distance_to b.position (Vec2.add a.position (Vec2.mulScalar (Vec2.normalize (Vec2.sub a.position b.position)) ((a.radius + b.radius - Vec2.distance_to a.position b.position) / 2)))) / 2)) = Vec2.sub b.position (Vec2.mulScalar (Vec2.normalize (Vec2.sub a.position b.position)) ((a.radius + b.radius - Vec2.distance_to a.position b.position) / 4)) := by
    rw [hM2, Vec2.add_mulScalar_neg]
  obtain ⟨hc2, hu2⟩ := half_step_static
    { b with pending_position_correction := Vec2.sub b.pending_position_correction (Vec2.mulScalar (Vec2.normalize (Vec2.sub a.position b.position)) ((a.radius + b.radius - Vec2.distance_to a.position b.position) / 2)) }
    { a with pending_velocity_change := Vec2.zero, pending_position_correction := Vec2.mulScalar (Vec2.normalize (Vec2.sub a.position b.position)) ((a.radius + b.radius - Vec2.distance_to a.position b.position) / 2), net_force_accumulated := Vec2.zero, position := Vec2.add a.position (Vec2.mulScalar (Vec2.normalize (Vec2.sub a.position b.position)) ((a.radius + b.radius - Vec2.distance_to a.position b.position) / 2)) }
    dt r hvb hva hfb
    (by rw [show ({ b with pending_position_correction := Vec2.sub b.pending_position_correction (Vec2.mulScalar (Vec2.normalize (Vec2.sub a.position b.position)) ((a.radius + b.radius - Vec2.distance_to a.position b.position) / 2)) } : Body).position = b.position from rfl]
        rw [show ({ a with pending_velocity_change := Vec2.zero, pending_position_correction := Vec2.mulScalar (Vec2.normalize (Vec2.sub a.position b.position)) ((a.radius + b.radius - Vec2.distance_to a.position b.position) / 2), net_force_accumulated := Vec2.zero, position := Vec2.add a.position (Vec2.mulScalar (Vec2.normalize (Vec2.sub a.position b.position)) ((a.radius + b.radius - Vec2.distance_to a.position b.position) / 2)) } : Body).position = Vec2.add a.position (Vec2.mulScalar (Vec2.normalize (Vec2.sub a.position b.position)) ((a.radius + b.radius - Vec2.distance_to a.position b.position) / 2)) from rfl]
        rw [hdist2]
        intro hzero
        have : 0 < Vec2.distance_to a.position b.position + (a.radius + b.radius - Vec2.distance_to a.position b.position) / 2 := by linarith
        linarith [hzero ▸ this])
    (by rw [show ({ b with pending_position_correction := Vec2.sub b.pending_position_correction (Vec2.mulScalar (Vec2.normalize (Vec2.sub a.position b.position)) ((a.radius + b.radius - Vec2.distance_to a.position b.position) / 2)) } : Body).position = b.position from rfl]
        rw [hdist2]
        have hrr : ({ b with pending_position_correction := Vec2.sub b.pending_position_correction (Vec2.mulScalar (Vec2.normalize (Vec2.sub a.position b.position)) ((a.radius + b.radius - Vec2.distance_to a.position b.position) / 2)) } : Body).radius = b.radius := rfl
        rw [hrr]
        linarith)
    (by rw [show ({ b with pending_position_correction := Vec2.sub b.pending_position_correction (Vec2.mulScalar (Vec2.normalize (Vec2.sub a.position b.position)) ((a.radius + b.radius - Vec2.distance_to a.position b.position) / 2)) } : Body).position = b.position from rfl]
        rw [hpos2]
        exact hB)
  have hrun : full_step_pair a b dt r = Except.ok
      ({ a with position := Vec2.add a.position (Vec2.mulScalar (Vec2.normalize (Vec2.sub a.position b.position)) ((a.radius + b.radius - Vec2.distance_to a.position b.position) / 2)), net_force_accumulated := Vec2.zero, pending_velocity_change := Vec2.zero, pending_position_correction := Vec2.sub (Vec2.mulScalar (Vec2.normalize (Vec2.sub a.position b.position)) ((a.radius + b.radius - Vec2.distance_to a.position b.position) / 2)) (Vec2.mulScalar (Vec2.normalize (Vec2.sub b.position (Vec2.add a.position (Vec2.mulScalar (Vec2.normalize (Vec2.sub a.position b.position)) ((a.radius + b.radius - Vec2.distance_to a.position b.position) / 2))))) ((b.radius + a.radius - Vec2.distance_to b.position (Vec2.add a.position (Vec2.mulScalar (Vec2.normalize (Vec2.sub a.position b.position)) ((a.radius + b.radius - Vec2.distance_to a.position b.position) / 2)))) / 2)) },
       { b with position := Vec2.add b.position (Vec2.mulScalar (Vec2.normalize (Vec2.sub b.position (Vec2.add a.position (Vec2.mulScalar (Vec2.normalize (Vec2.sub a.position b.position)) ((a.radius + b.radius - Vec2.distance_to a.position b.position) / 2))))) ((b.radius + a.radius - Vec2.distance_to b.position (Vec2.add a.position (Vec2.mulScalar (Vec2.normalize (Vec2.sub a.position b.position)) ((a.radius + b.radius - Vec2.distance_to a.position b.position) / 2)))) / 2)), net_force_accumulated := Vec2.zero, pending_velocity_change := Vec2.zero, pending_position_correction := Vec2.mulScalar (Vec2.normalize (Vec2.sub b.position (Vec2.add a.position (Vec2.mulScalar (Vec2.normalize (Vec2.sub a.position b.position)) ((a.radius + b.radius - Vec2.distance_to a.position b.position) / 2))))) ((b.radius + a.radius - Vec2.distance_to b.position (Vec2.add a.position (Vec2.mulScalar (Vec2.normalize (Vec2.sub a.position b.position)) ((a.radius + b.radius - Vec2.distance_to a.position b.position) / 2)))) / 2) }) := by
    simp only [full_step_pair, hc1, except_bind_ok, hu1, hc2, hu2]
  refine ⟨_, hrun, ?_, ?_, ?_⟩
  · rfl
  · show Vec2.add b.position _ = _
    rw [hpos2]
  · show Vec2.distance_to (Vec2.add a.position _) (Vec2.add b.position _) = _
    rw [hpos2]
    rw [dist_along a.position b.position ((a.radius + b.radius - Vec2.distance_to a.position b.position) / 2) ((a.radius + b.radius - Vec2.distance_to a.position b.position) / 4) (Vec2.distance_to a.position b.position) rfl hd0pos (by linarith) (by linarith)]
    ring

/-! Evaluation facts for the concrete sample pairs. -/

theorem Vec2.normalize_eval (v : Vec2) (l : ℝ) (h : Vec2.length v = l) :
    Vec2.normalize v = ⟨v.x / l, v.y / l⟩ := by
  rw [Vec2.normalize, h]
  rfl

theorem sample_sub : Vec2.sub sampleA.position sampleB.position = ⟨-3, 0⟩ := by
  norm_num [sampleA, sampleB, Vec2.sub]

theorem sample_dist : Vec2.distance_to sampleA.position sampleB.position = 3 := by
  rw [Vec2.distance_to, sample_sub]
  exact Vec2.length_eval _ 3 (by norm_num) (by norm_num)

theorem sample_dir : Vec2.normalize (Vec2.sub sampleA.position sampleB.position) = ⟨-1, 0⟩ := by
  rw [sample_sub, Vec2.normalize_eval _ 3 (Vec2.length_eval _ 3 (by norm_num) (by norm_num))]
  norm_num

theorem head_on_sub : Vec2.sub headOnA.position headOnB.position = ⟨-3, 0⟩ := by
  norm_num [headOnA, headOnB, Vec2.sub]

theorem head_on_dist : Vec2.distance_to headOnA.position headOnB.position = 3 := by
  rw [Vec2.distance_to, head_on_sub]
  exact Vec2.length_eval _ 3 (by norm_num) (by norm_num)

theorem head_on_dir : Vec2.normalize (Vec2.sub headOnA.position headOnB.position) = ⟨-1, 0⟩ := by
  rw [head_on_sub, Vec2.normalize_eval _ 3 (Vec2.length_eval _ 3 (by norm_num) (by norm_num))]
  norm_num

theorem zero_mass_sub : Vec2.sub zeroMassA.position unitMassB.position = ⟨-1, 0⟩ := by
  norm_num [zeroMassA, unitMassB, Vec2.sub]

theorem zero_mass_dist : Vec2.distance_to zeroMassA.position unitMassB.position = 1 := by
  rw [Vec2.distance_to, zero_mass_sub]
  exact Vec2.length_eval _ 1 (by norm_num) (by norm_num)

theorem zero_mass_dir : Vec2.normalize (Vec2.sub zeroMassA.position unitMassB.position) = ⟨-1, 0⟩ := by
  rw [zero_mass_sub, Vec2.normalize_eval _ 1 (Vec2.length_eval _ 1 (by norm_num) (by norm_num))]
  norm_num

theorem deep_sub : Vec2.sub deepA.position deepB.position = ⟨-1, 0⟩ := by
  norm_num [deepA, deepB, Vec2.sub]

theorem deep_dist : Vec2.distance_to deepA.position deepB.position = 1 := by
  rw [Vec2.distance_to, deep_sub]
  exact Vec2.length_eval _ 1 (by norm_num) (by norm_num)

theorem deep_dir : Vec2.normalize (Vec2.sub deepA.position deepB.position) = ⟨-1, 0⟩ := by
  rw [deep_sub, Vec2.normalize_eval _ 1 (Vec2.length_eval _ 1 (by norm_num) (by norm_num))]
  norm_num

/-! Claim theorems. -/

/-- C1: for an overlapping, approaching pair in which one body's mass is
exactly 0, the source does NOT skip silently: `1 / self.mass` on line 65
raises `ZeroDivisionError` before the `j_divisor == 0` guard on line 66 can
run — the embedded run yields the error value, contradicting the claim that
such a pair is skipped without raising. -/
theorem c1_zero_mass_raises :
    resolve_collision zeroMassA unitMassB = Except.error () := by
  simp only [resolve_collision, zero_mass_dist, zero_mass_dir]
  rw [if_pos (⟨by norm_num [zeroMassA, unitMassB], by norm_num⟩ :
    (1:ℝ) < zeroMassA.radius + unitMassB.radius ∧ (1:ℝ) ≠ 0)]
  rw [if_pos (show Vec2.dot (Vec2.sub zeroMassA.velocity unitMassB.velocity) (⟨-1, 0⟩ : Vec2) < 0
    from by norm_num [zeroMassA, unitMassB, Vec2.zero, Vec2.sub, Vec2.dot])]
  rw [if_pos (show zeroMassA.mass = 0 from rfl)]

/-- C2: for every body, timestep and rectangle, `update` performs exactly the
integrator steps of §4.4 in order — (a) force-driven velocity change only when
mass > 0, (b) unconditional reset of the force accumulator, (c) velocity +=
pending velocity change, (d) position += pending position correction,
(e) position += velocity·Δt — and only then applies the boundary clamp. -/
theorem c2_update_step_order (b : Body) (dt : ℝ) (r : Rect) :
    update b dt r = apply_boundary (spec_integrate b dt) r :=
  update_eq_spec b dt r

/-- C7: two bodies with identical centers: `resolve_collision` raises no error
and writes nothing to either body, and the collision pass of a step leaves the
pair's pending contributions at zero (only the caller's own per-step reset
happens). -/
theorem c7_degenerate_pair (a b : Body) (h : a.position = b.position) :
    resolve_collision a b = Except.ok (a, b) ∧
    calculate_physics_pair a b = Except.ok
      ({ a with pending_velocity_change := Vec2.zero, pending_position_correction := Vec2.zero }, b) := by
  refine ⟨resolve_collision_coincident a b h, ?_⟩
  simp only [calculate_physics_pair]
  by_cases hI : intersects a.radius b.radius a.position b.position
  · rw [if_pos hI, resolve_collision_coincident
      { a with pending_velocity_change := Vec2.zero, pending_position_correction := Vec2.zero } b h]
  · rw [if_neg hI]

/-- Witness for C7 at the concrete coincident pair. -/
theorem c7_witness :
    coincidentA.position = coincidentB.position ∧
    resolve_collision coincidentA coincidentB = Except.ok (coincidentA, coincidentB) :=
  ⟨rfl, (c7_degenerate_pair coincidentA coincidentB rfl).1⟩

/-- C9: on each of the four edges independently, a boundary bounce whose
reflected axis velocity has magnitude below 0.1 sets that axis velocity to
exactly 0 rather than leaving a small residual. -/
theorem c9_anti_jitter_damping (b : Body) (r : Rect) :
    (b.position.x - b.radius < r.left → |b.velocity.x * (-b.restitution)| < 0.1 →
      (bounce_left b r).velocity.x = 0) ∧
    (b.position.x + b.radius > r.right → |b.velocity.x * (-b.restitution)| < 0.1 →
      (bounce_right b r).velocity.x = 0) ∧
    (b.position.y - b.radius < r.top → |b.velocity.y * (-b.restitution)| < 0.1 →
      (bounce_top b r).velocity.y = 0) ∧
    (b.position.y + b.radius > r.bottom → |b.velocity.y * (-b.restitution)| < 0.1 →
      (bounce_bottom b r).velocity.y = 0) := by
  refine ⟨fun h1 h2 => ?_, fun h1 h2 => ?_, fun h1 h2 => ?_, fun h1 h2 => ?_⟩
  · unfold bounce_left
    rw [if_pos h1]
    show (if |b.velocity.x * (-b.restitution)| < 0.1 then (0:ℝ) else b.velocity.x * (-b.restitution)) = 0
    rw [if_pos h2]
  · unfold bounce_right
    rw [if_pos h1]
    show (if |b.velocity.x * (-b.restitution)| < 0.1 then (0:ℝ) else b.velocity.x * (-b.restitution)) = 0
    rw [if_pos h2]
  · unfold bounce_top
    rw [if_pos h1]
    show (if |b.velocity.y * (-b.restitution)| < 0.1 then (0:ℝ) else b.velocity.y * (-b.restitution)) = 0
    rw [if_pos h2]
  · unfold bounce_bottom
    rw [if_pos h1]
    show (if |b.velocity.y * (-b.restitution)| < 0.1 then (0:ℝ) else b.velocity.y * (-b.restitution)) = 0
    rw [if_pos h2]

/-- Witness for C9 at a concrete slow bounce off the left edge. -/
theorem c9_witness :
    (jitterBody.position.x - jitterBody.radius < smallRect.left ∧
      |jitterBody.velocity.x * (-jitterBody.restitution)| < 0.1) ∧
    (bounce_left jitterBody smallRect).velocity.x = 0 := by
  refine ⟨⟨by norm_num [jitterBody, smallRect], ?_⟩, ?_⟩
  · rw [abs_lt]
    constructor <;> norm_num [jitterBody]
  · exact (c9_anti_jitter_damping jitterBody smallRect).1
      (by norm_num [jitterBody, smallRect])
      (by rw [abs_lt]; constructor <;> norm_num [jitterBody])

/-- C10: `apply_force` adds the force into `net_force_accumulated`, leaves
every other field unchanged, and does not depend on its `delta_time`
argument (the right-hand side mentions no timestep). -/
theorem c10_apply_force_only_accumulates (b : Body) (f : Vec2) (dt : ℝ) :
    apply_force b f dt = { b with net_force_accumulated := Vec2.add b.net_force_accumulated f } :=
  rfl

/-- C3: for an overlapping pair with distinct centers (and masses for which
the claim's impulse formula is defined), `resolve_collision` adds
`(overlap/2)·dir` to A's pending position correction and subtracts it from
B's; then, exactly when the relative velocity along `dir` is negative, it adds
`(j·dir)/massA` to A's pending velocity change and subtracts `(j·dir)/massB`
from B's, with `j = -(1+min e)·vAlongNormal / (1/massA + 1/massB)`; when
`vAlongNormal ≥ 0` neither pending velocity change is written. -/
theorem c3_resolve_collision_formulas (a b : Body)
    (hma : a.mass ≠ 0) (hmb : b.mass ≠ 0)
    (hdiv : 1 / a.mass + 1 / b.mass ≠ 0)
    (h0 : 0 < Vec2.distance_to a.position b.position)
    (hlt : Vec2.distance_to a.position b.position < a.radius + b.radius) :
    ∃ p : Body × Body, resolve_collision a b = Except.ok p ∧
      p.1.pending_position_correction = Vec2.add a.pending_position_correction (Vec2.mulScalar (Vec2.normalize (Vec2.sub a.position b.position)) ((a.radius + b.radius - Vec2.distance_to a.position b.position) / 2)) ∧
      p.2.pending_position_correction = Vec2.sub b.pending_position_correction (Vec2.mulScalar (Vec2.normalize (Vec2.sub a.position b.position)) ((a.radius + b.radius - Vec2.distance_to a.position b.position) / 2)) ∧
      (Vec2.dot (Vec2.sub a.velocity b.velocity) (Vec2.normalize (Vec2.sub a.position b.position)) < 0 →
        p.1.pending_velocity_change = Vec2.add a.pending_velocity_change (Vec2.divScalar (Vec2.smul (-(1 + min a.restitution b.restitution) * Vec2.dot (Vec2.sub a.velocity b.velocity) (Vec2.normalize (Vec2.sub a.position b.position)) / (1 / a.mass + 1 / b.mass)) (Vec2.normalize (Vec2.sub a.position b.position))) a.mass) ∧
        p.2.pending_velocity_change = Vec2.sub b.pending_velocity_change (Vec2.divScalar (Vec2.smul (-(1 + min a.restitution b.restitution) * Vec2.dot (Vec2.sub a.velocity b.velocity) (Vec2.normalize (Vec2.sub a.position b.position)) / (1 / a.mass + 1 / b.mass)) (Vec2.normalize (Vec2.sub a.position b.position))) b.mass)) ∧
      (0 ≤ Vec2.dot (Vec2.sub a.velocity b.velocity) (Vec2.normalize (Vec2.sub a.position b.position)) →
        p.1.pending_velocity_change = a.pending_velocity_change ∧
        p.2.pending_velocity_change = b.pending_velocity_change) := by
  rcases lt_or_le (Vec2.dot (Vec2.sub a.velocity b.velocity)
    (Vec2.normalize (Vec2.sub a.position b.position))) 0 with hv | hv
  · exact ⟨_, resolve_collision_approaching a b h0.ne' hlt hv hma hmb hdiv, rfl, rfl,
      fun _ => ⟨rfl, rfl⟩, fun hcon => absurd hv (not_lt.mpr hcon)⟩
  · exact ⟨_, resolve_collision_separating a b h0.ne' hlt hv, rfl, rfl,
      fun hcon => absurd hcon (not_lt.mpr hv), fun _ => ⟨rfl, rfl⟩⟩

/-- Witness for C3 at the concrete overlapping, approaching pair. -/
theorem c3_witness :
    (headOnA.mass ≠ 0 ∧ headOnB.mass ≠ 0 ∧ 1 / headOnA.mass + 1 / headOnB.mass ≠ 0 ∧
      0 < Vec2.distance_to headOnA.position headOnB.position ∧
      Vec2.distance_to headOnA.position headOnB.position < headOnA.radius + headOnB.radius) ∧
    ∃ p : Body × Body, resolve_collision headOnA headOnB = Except.ok p := by
  have h1 : headOnA.mass ≠ 0 := by norm_num [headOnA]
  have h2 : headOnB.mass ≠ 0 := by norm_num [headOnB]
  have h3 : 1 / headOnA.mass + 1 / headOnB.mass ≠ 0 := by norm_num [headOnA, headOnB]
  have h4 : 0 < Vec2.distance_to headOnA.position headOnB.position := by
    rw [head_on_dist]; norm_num
  have h5 : Vec2.distance_to headOnA.position headOnB.position < headOnA.radius + headOnB.radius := by
    rw [head_on_dist]; norm_num [headOnA, headOnB]
  obtain ⟨p, hp, -⟩ := c3_resolve_collision_formulas headOnA headOnB h1 h2 h3 h4 h5
  exact ⟨⟨h1, h2, h3, h4, h5⟩, p, hp⟩

/-- C6 counterexample: `resolve_collision` called on `sampleA` against
`sampleB` changes `sampleB`'s pending position correction (from `(0,0)` to
`(1/2, 0)`), refuting the claim that only the calling body's own pending
fields are written. -/
theorem c6_counterexample :
    Except.map (fun p : Body × Body => p.2.pending_position_correction)
      (resolve_collision sampleA sampleB) = Except.ok ⟨1/2, 0⟩ ∧
    (⟨1/2, 0⟩ : Vec2) ≠ sampleB.pending_position_correction := by
  constructor
  · rw [resolve_collision_separating sampleA sampleB (by rw [sample_dist]; norm_num)
      (by rw [sample_dist]; norm_num [sampleA, sampleB]) (by simp [sampleA, sampleB])]
    simp only [Except.map]
    congr 1
    rw [sample_dir, sample_dist]
    norm_num [sampleA, sampleB, Vec2.sub, Vec2.mulScalar, Vec2.zero]
  · norm_num [sampleB, Vec2.zero]

/-- C6 amended: `resolve_collision` called on `a` writes BOTH bodies' pending
fields, not only its own half — line 57 subtracts the symmetric half of the
position correction from `b`'s `pending_position_correction` (always, for any
overlapping pair with distinct centers), and, when the pair is approaching
(`vAlongNormal < 0`), line 73 additionally subtracts the impulse half from
`b`'s `pending_velocity_change`; and the cross-write to `b` is discarded by
the reset at the start of `b`'s own `calculate_physics` pass, whose outcome
is independent of whatever was previously written into `b`'s pending
fields. -/
theorem c6_amended_writes_both (a b : Body)
    (hma : a.mass ≠ 0) (hmb : b.mass ≠ 0)
    (hdiv : 1 / a.mass + 1 / b.mass ≠ 0)
    (h0 : Vec2.distance_to a.position b.position ≠ 0)
    (hlt : Vec2.distance_to a.position b.position < a.radius + b.radius) :
    (∃ p : Body × Body, resolve_collision a b = Except.ok p ∧
      p.1.pending_position_correction = Vec2.add a.pending_position_correction (Vec2.mulScalar (Vec2.normalize (Vec2.sub a.position b.position)) ((a.radius + b.radius - Vec2.distance_to a.position b.position) / 2)) ∧
      p.2.pending_position_correction = Vec2.sub b.pending_position_correction (Vec2.mulScalar (Vec2.normalize (Vec2.sub a.position b.position)) ((a.radius + b.radius - Vec2.distance_to a.position b.position) / 2)) ∧
      (Vec2.dot (Vec2.sub a.velocity b.velocity) (Vec2.normalize (Vec2.sub a.position b.position)) < 0 →
        p.1.pending_velocity_change = Vec2.add a.pending_velocity_change (Vec2.divScalar (Vec2.smul (-(1 + min a.restitution b.restitution) * Vec2.dot (Vec2.sub a.velocity b.velocity) (Vec2.normalize (Vec2.sub a.position b.position)) / (1 / a.mass + 1 / b.mass)) (Vec2.normalize (Vec2.sub a.position b.position))) a.mass) ∧
        p.2.pending_velocity_change = Vec2.sub b.pending_velocity_change (Vec2.divScalar (Vec2.smul (-(1 + min a.restitution b.restitution) * Vec2.dot (Vec2.sub a.velocity b.velocity) (Vec2.normalize (Vec2.sub a.position b.position)) / (1 / a.mass + 1 / b.mass)) (Vec2.normalize (Vec2.sub a.position b.position))) b.mass))) ∧
    ∀ (w q : Vec2) (o : Body),
      calculate_physics_pair { b with pending_velocity_change := w, pending_position_correction := q } o
        = calculate_physics_pair b o := by
  constructor
  · rcases lt_or_le (Vec2.dot (Vec2.sub a.velocity b.velocity)
      (Vec2.normalize (Vec2.sub a.position b.position))) 0 with hv | hv
    · exact ⟨_, resolve_collision_approaching a b h0 hlt hv hma hmb hdiv, rfl, rfl,
        fun _ => ⟨rfl, rfl⟩⟩
    · exact ⟨_, resolve_collision_separating a b h0 hlt hv, rfl, rfl,
        fun hcon => absurd hcon (not_lt.mpr hv)⟩
  · intro w q o
    rfl

/-- Witness for the amended C6 at the concrete approaching pair: the impulse
branch fires, `headOnB`'s pending velocity change is cross-written on line 73,
and the discard-by-reset equation is instantiated at a concrete stale pending
state. -/
theorem c6_amended_witness :
    (headOnA.mass ≠ 0 ∧ headOnB.mass ≠ 0 ∧ 1 / headOnA.mass + 1 / headOnB.mass ≠ 0 ∧
      Vec2.distance_to headOnA.position headOnB.position ≠ 0 ∧
      Vec2.distance_to headOnA.position headOnB.position < headOnA.radius + headOnB.radius) ∧
    (∃ p : Body × Body, resolve_collision headOnA headOnB = Except.ok p ∧
      p.2.pending_position_correction = Vec2.sub headOnB.pending_position_correction (Vec2.mulScalar (Vec2.normalize (Vec2.sub headOnA.position headOnB.position)) ((headOnA.radius + headOnB.radius - Vec2.distance_to headOnA.position headOnB.position) / 2)) ∧
      p.2.pending_velocity_change = Vec2.sub headOnB.pending_velocity_change (Vec2.divScalar (Vec2.smul (-(1 + min headOnA.restitution headOnB.restitution) * Vec2.dot (Vec2.sub headOnA.velocity headOnB.velocity) (Vec2.normalize (Vec2.sub headOnA.position headOnB.position)) / (1 / headOnA.mass + 1 / headOnB.mass)) (Vec2.normalize (Vec2.sub headOnA.position headOnB.position))) headOnB.mass)) ∧
    calculate_physics_pair { headOnB with pending_velocity_change := ⟨9, 9⟩, pending_position_correction := ⟨7, 7⟩ } headOnA
      = calculate_physics_pair headOnB headOnA := by
  have h1 : headOnA.mass ≠ 0 := by norm_num [headOnA]
  have h2 : headOnB.mass ≠ 0 := by norm_num [headOnB]
  have h3 : 1 / headOnA.mass + 1 / headOnB.mass ≠ 0 := by norm_num [headOnA, headOnB]
  have h4 : Vec2.distance_to headOnA.position headOnB.position ≠ 0 := by
    rw [head_on_dist]; norm_num
  have h5 : Vec2.distance_to headOnA.position headOnB.position < headOnA.radius + headOnB.radius := by
    rw [head_on_dist]; norm_num [headOnA, headOnB]
  have hvan : Vec2.dot (Vec2.sub headOnA.velocity headOnB.velocity)
      (Vec2.normalize (Vec2.sub headOnA.position headOnB.position)) < 0 := by
    rw [head_on_dir]
    norm_num [headOnA, headOnB, Vec2.sub, Vec2.dot]
  obtain ⟨⟨p, hp, hppcA, hppcB, himp⟩, hreset⟩ :=
    c6_amended_writes_both headOnA headOnB h1 h2 h3 h4 h5
  exact ⟨⟨h1, h2, h3, h4, h5⟩, ⟨p, hp, hppcB, (himp hvan).2⟩, hreset ⟨9, 9⟩ ⟨7, 7⟩ headOnA⟩

/-- C8: two equal-mass (mass 1), restitution-1 bodies approaching head-on
along the line of centers with velocities `v` and `-v`: after resolution (the
recorded pending velocity changes applied to the velocities, as line 105 of
`update` does for each body) the velocities are exactly swapped. -/
theorem c8_elastic_swap (a b : Body) (c : ℝ)
    (hma : a.mass = 1) (hmb : b.mass = 1)
    (hra : a.restitution = 1) (hrb : b.restitution = 1)
    (hpa : a.pending_velocity_change = Vec2.zero) (hpb : b.pending_velocity_change = Vec2.zero)
    (hc : 0 < c)
    (hva : a.velocity = Vec2.smul (-c) (Vec2.normalize (Vec2.sub a.position b.position)))
    (hvb : b.velocity = Vec2.smul c (Vec2.normalize (Vec2.sub a.position b.position)))
    (h0 : Vec2.distance_to a.position b.position ≠ 0)
    (hlt : Vec2.distance_to a.position b.position < a.radius + b.radius) :
    ∃ p : Body × Body, resolve_collision a b = Except.ok p ∧
      Vec2.add p.1.velocity p.1.pending_velocity_change = b.velocity ∧
      Vec2.add p.2.velocity p.2.pending_velocity_change = a.velocity := by
  have hunit : Vec2.dot (Vec2.normalize (Vec2.sub a.position b.position))
      (Vec2.normalize (Vec2.sub a.position b.position)) = 1 :=
    Vec2.dot_normalize_self _ h0
  have hvan : Vec2.dot (Vec2.sub a.velocity b.velocity)
      (Vec2.normalize (Vec2.sub a.position b.position)) = -2 * c := by
    rw [hva, hvb]
    simp only [Vec2.sub, Vec2.smul, Vec2.dot] at hunit ⊢
    linear_combination (-2 * c) * hunit
  refine ⟨_, resolve_collision_approaching a b h0 hlt (by rw [hvan]; linarith)
    (by rw [hma]; norm_num) (by rw [hmb]; norm_num) (by rw [hma, hmb]; norm_num), ?_, ?_⟩
  · show Vec2.add a.velocity (Vec2.add a.pending_velocity_change (Vec2.divScalar (Vec2.smul (-(1 + min a.restitution b.restitution) * Vec2.dot (Vec2.sub a.velocity b.velocity) (Vec2.normalize (Vec2.sub a.position b.position)) / (1 / a.mass + 1 / b.mass)) (Vec2.normalize (Vec2.sub a.position b.position))) a.mass)) = b.velocity
    rw [hvan, hpa, hma, hmb, hra, hrb, hva, hvb]
    ext <;> simp [Vec2.add, Vec2.smul, Vec2.divScalar, Vec2.zero, min_self] <;> ring
  · show Vec2.add b.velocity (Vec2.sub b.pending_velocity_change (Vec2.divScalar (Vec2.smul (-(1 + min a.restitution b.restitution) * Vec2.dot (Vec2.sub a.velocity b.velocity) (Vec2.normalize (Vec2.sub a.position b.position)) / (1 / a.mass + 1 / b.mass)) (Vec2.normalize (Vec2.sub a.position b.position))) b.mass)) = a.velocity
    rw [hvan, hpb, hma, hmb, hra, hrb, hva, hvb]
    ext <;> simp [Vec2.add, Vec2.sub, Vec2.smul, Vec2.divScalar, Vec2.zero, min_self] <;> ring

/-- Witness for C8 at the concrete head-on elastic pair with speed 1. -/
theorem c8_witness :
    ((0:ℝ) < 1 ∧
      headOnA.velocity = Vec2.smul (-1) (Vec2.normalize (Vec2.sub headOnA.position headOnB.position)) ∧
      headOnB.velocity = Vec2.smul 1 (Vec2.normalize (Vec2.sub headOnA.position headOnB.position)) ∧
      Vec2.distance_to headOnA.position headOnB.position ≠ 0 ∧
      Vec2.distance_to headOnA.position headOnB.position < headOnA.radius + headOnB.radius) ∧
    ∃ p : Body × Body, resolve_collision headOnA headOnB = Except.ok p ∧
      Vec2.add p.1.velocity p.1.pending_velocity_change = headOnB.velocity ∧
      Vec2.add p.2.velocity p.2.pending_velocity_change = headOnA.velocity := by
  have hva : headOnA.velocity = Vec2.smul (-1) (Vec2.normalize (Vec2.sub headOnA.position headOnB.position)) := by
    rw [head_on_dir]
    norm_num [headOnA, Vec2.smul]
  have hvb : headOnB.velocity = Vec2.smul 1 (Vec2.normalize (Vec2.sub headOnA.position headOnB.position)) := by
    rw [head_on_dir]
    norm_num [headOnB, Vec2.smul]
  have h0 : Vec2.distance_to headOnA.position headOnB.position ≠ 0 := by
    rw [head_on_dist]; norm_num
  have hlt : Vec2.distance_to headOnA.position headOnB.position < headOnA.radius + headOnB.radius := by
    rw [head_on_dist]; norm_num [headOnA, headOnB]
  exact ⟨⟨by norm_num, hva, hvb, h0, hlt⟩,
    c8_elastic_swap headOnA headOnB 1 rfl rfl rfl rfl rfl rfl (by norm_num) hva hvb h0 hlt⟩

/-- C4 counterexample: a body of radius 6 in a 10-by-10 rectangle. The left
clamp places it at x = 6, then the right clamp moves it to x = 4, which
violates `left + radius ≤ position.x` (6 ≤ 4 is false) — the claim fails when
the body's diameter exceeds the rectangle's width. -/
theorem c4_counterexample :
    (update bigBody 1 smallRect).position.x < smallRect.left + bigBody.radius := by
  norm_num [update, apply_movement, apply_boundary, bounce_left, bounce_right, bounce_top,
    bounce_bottom, bigBody, smallRect, Vec2.add, Vec2.mulScalar, Vec2.divScalar, Vec2.zero]

/-- C4 amended: provided the rectangle is at least one body-diameter wide and
tall (`left + radius ≤ right - radius` and `top + radius ≤ bottom - radius`),
one `update` step leaves the position inside the containment band on both
axes, regardless of the pre-step velocity magnitude. -/
theorem c4_boundary_containment (b : Body) (dt : ℝ) (r : Rect)
    (hx : r.left + b.radius ≤ r.right - b.radius)
    (hy : r.top + b.radius ≤ r.bottom - b.radius) :
    r.left + b.radius ≤ (update b dt r).position.x ∧
    (update b dt r).position.x ≤ r.right - b.radius ∧
    r.top + b.radius ≤ (update b dt r).position.y ∧
    (update b dt r).position.y ≤ r.bottom - b.radius := by
  rw [update_eq_spec]
  obtain ⟨hx1, hx2⟩ := clamp_x (spec_integrate b dt) r hx
  have hXrad : (bounce_right (bounce_left (spec_integrate b dt) r) r).radius = b.radius := by
    rw [bounce_right_radius, bounce_left_radius]
    rfl
  obtain ⟨hy1, hy2⟩ := clamp_y (bounce_right (bounce_left (spec_integrate b dt) r) r) r
    (by rw [hXrad]; exact hy)
  rw [hXrad] at hy1 hy2
  refine ⟨?_, ?_, ?_, ?_⟩
  · simp only [apply_boundary, bounce_bottom_position_x, bounce_top_position_x]
    exact hx1
  · simp only [apply_boundary, bounce_bottom_position_x, bounce_top_position_x]
    exact hx2
  · simp only [apply_boundary]
    exact hy1
  · simp only [apply_boundary]
    exact hy2

/-- Witness for the amended C4 at a concrete small body in `smallRect`. -/
theorem c4_witness :
    (smallRect.left + smallBody.radius ≤ smallRect.right - smallBody.radius ∧
      smallRect.top + smallBody.radius ≤ smallRect.bottom - smallBody.radius) ∧
    (smallRect.left + smallBody.radius ≤ (update smallBody 1 smallRect).position.x ∧
      (update smallBody 1 smallRect).position.x ≤ smallRect.right - smallBody.radius ∧
      smallRect.top + smallBody.radius ≤ (update smallBody 1 smallRect).position.y ∧
      (update smallBody 1 smallRect).position.y ≤ smallRect.bottom - smallBody.radius) := by
  refine ⟨⟨by norm_num [smallRect, smallBody], by norm_num [smallRect, smallBody]⟩, ?_⟩
  exact c4_boundary_containment smallBody 1 smallRect
    (by norm_num [smallRect, smallBody]) (by norm_num [smallRect, smallBody])

/-- C5 amended: for a stationary overlapping pair with distinct centers, no
accumulated force and no boundary contact, one full frame (both bodies'
`calculate_physics` + `update` in registry order) raises the center distance
to exactly the combined radii minus a QUARTER of the detected overlap: the
penetration shrinks strictly but is not eliminated to within a small
tolerance. -/
theorem c5_overlap_reduced_by_three_quarters (a b : Body) (dt : ℝ) (r : Rect)
    (hva : a.velocity = Vec2.zero) (hvb : b.velocity = Vec2.zero)
    (hfa : a.net_force_accumulated = Vec2.zero) (hfb : b.net_force_accumulated = Vec2.zero)
    (h0 : Vec2.distance_to a.position b.position ≠ 0)
    (hlt : Vec2.distance_to a.position b.position < a.radius + b.radius)
    (hA : in_bounds_at (Vec2.add a.position (Vec2.mulScalar (Vec2.normalize (Vec2.sub a.position b.position)) ((a.radius + b.radius - Vec2.distance_to a.position b.position) / 2))) a.radius r)
    (hB : in_bounds_at (Vec2.sub b.position (Vec2.mulScalar (Vec2.normalize (Vec2.sub a.position b.position)) ((a.radius + b.radius - Vec2.distance_to a.position b.position) / 4))) b.radius r) :
    ∃ p : Body × Body, full_step_pair a b dt r = Except.ok p ∧
      Vec2.distance_to p.1.position p.2.position
        = (a.radius + b.radius) - (a.radius + b.radius - Vec2.distance_to a.position b.position) / 4 ∧
      Vec2.distance_to a.position b.position < Vec2.distance_to p.1.position p.2.position := by
  obtain ⟨p, hp, h1, h2, h3⟩ := full_step_pair_static a b dt r hva hvb hfa hfb h0 hlt hA hB
  refine ⟨p, hp, h3, ?_⟩
  rw [h3]
  linarith

/-- Witness for the amended C5 at the concrete stationary overlapping pair. -/
theorem c5_witness :
    (Vec2.distance_to sampleA.position sampleB.position ≠ 0 ∧
      Vec2.distance_to sampleA.position sampleB.position < sampleA.radius + sampleB.radius) ∧
    ∃ p : Body × Body, full_step_pair sampleA sampleB 1 hugeRect = Except.ok p ∧
      Vec2.distance_to p.1.position p.2.position
        = (sampleA.radius + sampleB.radius) - (sampleA.radius + sampleB.radius - Vec2.distance_to sampleA.position sampleB.position) / 4 := by
  have h0 : Vec2.distance_to sampleA.position sampleB.position ≠ 0 := by
    rw [sample_dist]; norm_num
  have hlt : Vec2.distance_to sampleA.position sampleB.position < sampleA.radius + sampleB.radius := by
    rw [sample_dist]; norm_num [sampleA, sampleB]
  have hA : in_bounds_at (Vec2.add sampleA.position (Vec2.mulScalar (Vec2.normalize (Vec2.sub sampleA.position sampleB.position)) ((sampleA.radius + sampleB.radius - Vec2.distance_to sampleA.position sampleB.position) / 2))) sampleA.radius hugeRect := by
    rw [sample_dir, sample_dist]
    norm_num [sampleA, sampleB, hugeRect, in_bounds_at, Vec2.add, Vec2.mulScalar]
  have hB : in_bounds_at (Vec2.sub sampleB.position (Vec2.mulScalar (Vec2.normalize (Vec2.sub sampleA.position sampleB.position)) ((sampleA.radius + sampleB.radius - Vec2.distance_to sampleA.position sampleB.position) / 4))) sampleB.radius hugeRect := by
    rw [sample_dir, sample_dist]
    norm_num [sampleA, sampleB, hugeRect, in_bounds_at, Vec2.sub, Vec2.mulScalar]
  obtain ⟨p, hp, hdist, -⟩ := c5_overlap_reduced_by_three_quarters sampleA sampleB 1 hugeRect
    rfl rfl rfl rfl h0 hlt hA hB
  exact ⟨⟨h0, hlt⟩, p, hp, hdist⟩

/-- C5 counterexample: radius-10 bodies with centers 1 apart (overlap 19).
After one full frame the distance is 61/4 = 15.25, leaving 4.75 of
penetration — the post-step distance falls short of the combined radii by
more than 4 length units, not by a small numeric tolerance. -/
theorem c5_counterexample :
    Except.map (fun p : Body × Body => Vec2.distance_to p.1.position p.2.position)
      (full_step_pair deepA deepB 1 hugeRect) = Except.ok (61/4) ∧
    (61/4 : ℝ) < deepA.radius + deepB.radius - 4 := by
  have h0 : Vec2.distance_to deepA.position deepB.position ≠ 0 := by
    rw [deep_dist]; norm_num
  have hlt : Vec2.distance_to deepA.position deepB.position < deepA.radius + deepB.radius := by
    rw [deep_dist]; norm_num [deepA, deepB]
  have hA : in_bounds_at (Vec2.add deepA.position (Vec2.mulScalar (Vec2.normalize (Vec2.sub deepA.position deepB.position)) ((deepA.radius + deepB.radius - Vec2.distance_to deepA.position deepB.position) / 2))) deepA.radius hugeRect := by
    rw [deep_dir, deep_dist]
    norm_num [deepA, deepB, hugeRect, in_bounds_at, Vec2.add, Vec2.mulScalar]
  have hB : in_bounds_at (Vec2.sub deepB.position (Vec2.mulScalar (Vec2.normalize (Vec2.sub deepA.position deepB.position)) ((deepA.radius + deepB.radius - Vec2.distance_to deepA.position deepB.position) / 4))) deepB.radius hugeRect := by
    rw [deep_dir, deep_dist]
    norm_num [deepA, deepB, hugeRect, in_bounds_at, Vec2.sub, Vec2.mulScalar]
  obtain ⟨p, hp, h1, h2, h3⟩ := full_step_pair_static deepA deepB 1 hugeRect rfl rfl rfl rfl h0 hlt hA hB
  constructor
  · rw [hp]
    simp only [Except.map]
    congr 1
    rw [h3, deep_dist]
    norm_num [deepA, deepB]
  · norm_num [deepA, deepB]

end
